import Mathlib

/-!
Shallow embedding of the postgres-mcp-server repository.

The repository holds two complete variants of the same MCP server:
  - `src/index.ts` (namespace `IndexTs`): whitelist read-only gate
    (trim, lower-case, startsWith "select" or "with"), resource URIs of the
    shape postgres://table/name parsed with the WHATWG URL class, no
    try/catch around the resource-listing catalog query, a static tool
    description, and a catalog query filtered only on table_schema.
  - `src/unnamed/part_000` (namespace `Part000`): blacklist gate via the
    anchored regex of write keywords, resource URIs table:///name parsed
    with an anchored regex, try/catch degradation of listResources, a
    policy-dependent tool description, and a catalog query filtered to
    BASE TABLE rows with ORDER BY table_name.

JS strings are modelled as Lean String values; the string operations the
code uses (trim, toLowerCase, startsWith, regular-expression tests) are
modelled on the underlying character lists.  The database driver is an
external collaborator: query execution is modelled as an oracle
String -> Except String String whose ok value is the serialized row set
(JSON.stringify of the rows) and whose error value is the message of the
raised database error.  Handlers return their protocol payload together
with the list of SQL texts or table names actually sent to the executor,
so that zero-execution properties are statements about that list.
-/

namespace PgMcp

/-- Model of the JS regular-expression whitespace class (and of the set the
JS trim removes), restricted to the ASCII range: space, tab, line feed,
carriage return, vertical tab and form feed. -/
def jsWs (c : Char) : Bool :=
  c = ' ' || c = '\t' || c = '\n' || c = '\r' || c = '\x0b' || c = '\x0c'

/-- Model of JS String.prototype.trim on a character list: drop whitespace
from both ends. -/
def trimL (l : List Char) : List Char :=
  (((l.dropWhile jsWs).reverse).dropWhile jsWs).reverse

/-- Model of JS String.prototype.toLowerCase on a character list, on the
ASCII range: lower-case every character. -/
def lowerL (l : List Char) : List Char := l.map Char.toLower

/-- A text content block of a tool response.  The JS objects also carry the
constant discriminator field type = text, which is omitted here. -/
structure TextContent where
  text : String
deriving DecidableEq

/-- A tool-call response: content blocks plus the optional isError flag
(none models a JS object on which the field is absent). -/
structure ToolResult where
  content : List TextContent
  isError : Option Bool
deriving DecidableEq

/-- A row of information_schema.tables as the two catalog queries see it. -/
structure CatalogRow where
  table_name : String
  table_schema : String
  table_type : String
deriving DecidableEq

/-- A resource descriptor as returned by the ListResources handlers. -/
structure Resource where
  uri : String
  name : String
  description : String
  mimeType : String
deriving DecidableEq

/-- A tool descriptor as returned by the ListTools handlers.  The constant
inputSchema object (one required string field) is omitted. -/
structure ToolDescriptor where
  name : String
  description : String
deriving DecidableEq

namespace IndexTs

/-- The isReadonly check of the call-tool handler of src/index.ts:
queryText.trim().toLowerCase().startsWith("select") or the same with
"with". -/
def isReadonly (q : String) : Bool :=
  "select".data.isPrefixOf (lowerL (trimL q.data)) ||
  "with".data.isPrefixOf (lowerL (trimL q.data))

/-- The policy-refusal response of src/index.ts (note isError: true). -/
def refusalResult : ToolResult :=
  { content := [⟨"Error: Only SELECT queries are allowed. Set DANGEROUSLY_ALLOW_WRITE_OPS=true to enable write operations."⟩],
    isError := some true }

/-- The try/catch block of the query tool of src/index.ts: run the text
through sql.unsafe; on success return the serialized rows, on a database
error return a Query error message with isError: true.  The second
component records the SQL texts sent to the executor. -/
def runQuery (db : String → Except String String) (q : String) :
    ToolResult × List String :=
  match db q with
  | .ok r => ({ content := [⟨r⟩], isError := none }, [q])
  | .error e => ({ content := [⟨"Query error: " ++ e⟩], isError := some true }, [q])

/-- The query branch of the CallTool handler of src/index.ts: when write
operations are not allowed and the text is not classified read-only,
return the refusal without touching the database; otherwise execute. -/
def handleQuery (allowWrite : Bool) (db : String → Except String String)
    (q : String) : ToolResult × List String :=
  if !allowWrite && !(isReadonly q) then (refusalResult, [])
  else runQuery db q

/-- Model of the information-schema query of the ListResources handler of
src/index.ts: rows with table_schema = public, no table_type filter, no
ORDER BY (the catalog order is kept as given). -/
def tablesQuery (cat : List CatalogRow) : List String :=
  (cat.filter (fun r => r.table_schema = "public")).map (fun r => r.table_name)

/-- The ListResources handler of src/index.ts.  The handler has no
try/catch, so a failure of the catalog query propagates out of the handler
(the request fails); the argument is the outcome of that query. -/
def listResources (queryOutcome : Except String (List CatalogRow)) :
    Except String (List Resource) :=
  match queryOutcome with
  | .error e => .error e
  | .ok cat => .ok ((tablesQuery cat).map (fun t =>
      { uri := "postgres://table/" ++ t,
        name := "Table: " ++ t,
        description := "Schema and sample data from the " ++ t ++ " table",
        mimeType := "application/json" }))

/-- Split a character list at the first occurrence of the :// scheme
separator: some (text before it, text after it), or none when the
separator does not occur. -/
def splitScheme : List Char → Option (List Char × List Char)
  | [] => none
  | ':' :: '/' :: '/' :: rest => some ([], rest)
  | c :: rest => (splitScheme rest).map (fun pr => (c :: pr.1, pr.2))

/-- Split a character list on every occurrence of a separator character
(the pieces do not contain the separator; n separators give n + 1
pieces). -/
def splitOnChar (sep : Char) : List Char → List (List Char)
  | [] => [[]]
  | c :: rest =>
    if c = sep then [] :: splitOnChar sep rest
    else
      match splitOnChar sep rest with
      | [] => [[c]]
      | h :: t => (c :: h) :: t

/-- Model of WHATWG URL parsing (the new URL constructor) restricted to the
authority form scheme://host/path with no userinfo, port, query or
fragment, and with no validation of the scheme characters: returns
(protocol including the trailing colon, pathname).  The first :// is the
authority separator; everything up to the next / is the host, and the
pathname is the rest with its leading slash (empty when there is no
path).  A string without a scheme separator is a parse failure (the
constructor throws). -/
def parseUrl (uri : String) : Option (String × String) :=
  match splitScheme uri.data with
  | none => none
  | some (scheme, rest) =>
    if scheme = [] then none
    else
      match splitOnChar '/' rest with
      | [] => none
      | _host :: segs =>
        if segs = [] then some (⟨scheme⟩ ++ ":", "")
        else some (⟨scheme⟩ ++ ":", ⟨'/' :: List.intercalate ['/'] segs⟩)

/-- The pathname.replace of src/index.ts with the regex anchored at the
start matching a literal /table/ : strip that leading text when present,
otherwise return the pathname unchanged. -/
def tableNameFromPath (p : String) : String :=
  if "/table/".data.isPrefixOf p.data then ⟨p.data.drop 7⟩ else p

/-- The content payload of the ReadResource handler of src/index.ts: the
text field is JSON.stringify of the schema (column rows) and the sample
(data rows), modelled as the pair of the two serialized parts. -/
structure ResourceContent where
  uri : String
  mimeType : String
  schema : String
  sample : String
deriving DecidableEq

/-- The ReadResource handler of src/index.ts: parse the URI (the
constructor throws on failure), check the protocol, take the pathname with
the leading /table/ stripped as the table name, run the column metadata
query (cols, an oracle on the table name, which returns empty rather than
failing for an unknown table) and then always run the bounded sample query
(sample, LIMIT 10); a sample failure propagates (no catch).  The second
component records the table names the sample query was issued against.
There is no validation of the table name against the catalog. -/
def readResource (cols : String → String)
    (sample : String → Except String String) (uri : String) :
    Except String ResourceContent × List String :=
  match parseUrl uri with
  | none => (.error ("Invalid URL: " ++ uri), [])
  | some (protocol, pathname) =>
    if protocol ≠ "postgres:" then
      (.error ("Unsupported protocol: " ++ protocol), [])
    else
      let tableName := tableNameFromPath pathname
      match sample tableName with
      | .error e => (.error e, [tableName])
      | .ok rows =>
        (.ok { uri := uri, mimeType := "application/json",
               schema := cols tableName, sample := rows }, [tableName])

/-- The ListTools handler of src/index.ts: a single query tool whose
description is one constant string, independent of the write-allow flag
(the handler reads no configuration). -/
def listTools (_allowWrite : Bool) : List ToolDescriptor :=
  [{ name := "query",
     description := "Execute a PostgreSQL query. By default, only SELECT queries are allowed unless write ops are enabled." }]

end IndexTs

/-- The ascending name order of ORDER BY table_name, modelled as the
lexicographic order on the character lists of the names. -/
def nameLe (a b : String) : Prop := a.data ≤ b.data

instance : DecidableRel nameLe :=
  fun a b => inferInstanceAs (Decidable (a.data ≤ b.data))

instance : IsTotal String nameLe := ⟨fun a b => le_total a.data b.data⟩

instance : IsTrans String nameLe := ⟨fun _ _ _ => le_trans⟩

namespace Part000

/-- The eight write-indicating keywords of the regex of
src/unnamed/part_000, in lower case. -/
def writeKeywords : List (List Char) :=
  ["insert".data, "update".data, "delete".data, "create".data,
   "drop".data, "alter".data, "truncate".data, "replace".data]

/-- Model of the anchored case-insensitive regex test of isWriteOperation
on a character list: optional leading whitespace (the keywords start with
letters, so the greedy star never has to give characters back), one of the
keywords compared case-insensitively, then one whitespace character. -/
def regexTest (l : List Char) : Bool :=
  let t := l.dropWhile jsWs
  writeKeywords.any (fun kw =>
    kw.isPrefixOf (lowerL t) &&
    (match t.drop kw.length with
     | c :: _ => jsWs c
     | [] => false))

/-- The isWriteOperation helper of src/unnamed/part_000: the regex is
tested against query.trim(). -/
def isWriteOperation (query : String) : Bool :=
  regexTest (trimL query.data)

/-- The policy-refusal response of src/unnamed/part_000.  The returned
object has no isError field at all. -/
def refusalResult : ToolResult :=
  { content := [⟨"Error: Write operations are not allowed. Set DANGEROUSLY_ALLOW_WRITE_OPS=true to enable write operations."⟩],
    isError := none }

/-- The try/catch block of the query tool of src/unnamed/part_000: run the
text through sql.unsafe; on success return the serialized rows, on a
database error return the message as text.  Neither branch sets the
isError field.  The second component records the SQL texts sent to the
executor. -/
def runQuery (db : String → Except String String) (q : String) :
    ToolResult × List String :=
  match db q with
  | .ok r => ({ content := [⟨r⟩], isError := none }, [q])
  | .error e =>
    ({ content := [⟨"Error executing query: " ++ e⟩], isError := none }, [q])

/-- The query branch of the CallTool handler of src/unnamed/part_000: when
the text is a write operation and writes are not allowed, return the
refusal without touching the database; otherwise execute. -/
def handleQuery (allowWrite : Bool) (db : String → Except String String)
    (q : String) : ToolResult × List String :=
  if isWriteOperation q && !allowWrite then (refusalResult, [])
  else runQuery db q

/-- Model of the getTables information-schema query of
src/unnamed/part_000: rows with table_schema = public and table_type =
BASE TABLE, with ORDER BY table_name modelled as an ascending insertion
sort on the name strings. -/
def getTables (cat : List CatalogRow) : List String :=
  List.insertionSort nameLe
    ((cat.filter (fun r =>
        r.table_schema = "public" && r.table_type = "BASE TABLE")).map
      (fun r => r.table_name))

/-- The ListResources handler of src/unnamed/part_000: on success one
descriptor per table name; the try/catch turns a catalog failure into an
empty resource list. -/
def listResources (queryOutcome : Except String (List CatalogRow)) :
    List Resource :=
  match queryOutcome with
  | .error _ => []
  | .ok cat => (getTables cat).map (fun t =>
      { uri := "table:///" ++ t,
        name := t,
        description := "PostgreSQL table: " ++ t,
        mimeType := "application/json" })

/-- Model of the JS regex dot (no dotAll flag): any character other than a
line terminator, restricted to the ASCII range. -/
def jsDot (c : Char) : Bool := c ≠ '\n' && c ≠ '\r'

/-- Model of the uri.match of src/unnamed/part_000 against the anchored
regex for a table URI: the match succeeds exactly when the uri is the
literal table:/// followed by one or more characters none of which is a
line terminator, and then the captured group is that tail. -/
def matchTableUri (uri : String) : Option String :=
  let l := uri.data
  if "table:///".data.isPrefixOf l then
    let rest := l.drop 9
    if rest ≠ [] && rest.all jsDot then some ⟨rest⟩ else none
  else none

/-- The content payload of the ReadResource handler of
src/unnamed/part_000: the text field is JSON.stringify of the sampled
rows. -/
structure ResourceContent where
  uri : String
  mimeType : String
  text : String
deriving DecidableEq

/-- The ReadResource handler of src/unnamed/part_000: match the URI
against the table regex (throw on mismatch), validate the table name
against getTables (the thrown Table not found is caught by the inner
catch and rewrapped), otherwise run the bounded sample query (LIMIT 100)
and wrap its outcome.  The second component records the table names the
sample query was issued against. -/
def readResource (cat : List CatalogRow)
    (sample : String → Except String String) (uri : String) :
    Except String ResourceContent × List String :=
  match matchTableUri uri with
  | none => (.error ("Invalid resource URI: " ++ uri), [])
  | some tableName =>
    if (getTables cat).contains tableName then
      match sample tableName with
      | .ok rows =>
        (.ok { uri := uri, mimeType := "application/json", text := rows },
         [tableName])
      | .error e =>
        (.error ("Error reading table " ++ tableName ++ ": " ++ e),
         [tableName])
    else
      (.error ("Error reading table " ++ tableName ++ ": Table not found: "
          ++ tableName), [])

/-- The ListTools handler of src/unnamed/part_000: a single query tool
whose description depends on the write-allow flag. -/
def listTools (allowWrite : Bool) : List ToolDescriptor :=
  [{ name := "query",
     description :=
       if allowWrite then
         "Execute a SQL query (read or write operations allowed)"
       else "Execute a read-only SQL query (SELECT statements only)" }]

end Part000

/-! Helper lemmas about the string model. -/

/-- The first element surviving dropWhile does not satisfy the predicate. -/
theorem dropWhile_head_not {α : Type} (p : α → Bool) :
    ∀ (l : List α) (c : α) (t : List α), l.dropWhile p = c :: t → p c = false := by
  intro l
  induction l with
  | nil => intro c t h; simp [List.dropWhile] at h
  | cons a l ih =>
    intro c t h
    rw [List.dropWhile_cons] at h
    by_cases hp : p a = true
    · rw [if_pos hp] at h; exact ih c t h
    · rw [if_neg hp] at h
      cases h
      simpa using hp

/-- A trimmed character list has no leading whitespace, so the leading
whitespace star of the write regex consumes nothing on it. -/
theorem trimL_no_leading (x : List Char) :
    (trimL x).dropWhile jsWs = trimL x := by
  cases h : trimL x with
  | nil => simp
  | cons c t =>
    have hpre : (c :: t) <+: x.dropWhile jsWs := by
      rw [← h]
      unfold trimL
      rw [← List.reverse_suffix]
      simpa using List.dropWhile_suffix (l := (x.dropWhile jsWs).reverse) jsWs
    obtain ⟨u, hu⟩ := hpre
    have hc : jsWs c = false := by
      apply dropWhile_head_not jsWs x c (t ++ u)
      rw [← hu]
      simp
    rw [List.dropWhile_cons, hc]
    simp

/-! The claims. -/

/-- C1: in both variants of the query tool, the database executor is
invoked if and only if the write-allow flag is true or the statement is
classified read-only by that variant; when the gate refuses, the handler
returns the policy-refusal content block and the executor receives
nothing; when it lets the statement through, the executor receives exactly
that statement, as in the concrete DROP TABLE t refusals. -/
theorem c1_query_gate_iff_readonly_or_allowed (allowWrite : Bool)
    (db : String → Except String String) (q : String) :
    IndexTs.handleQuery allowWrite db q =
      (if allowWrite || IndexTs.isReadonly q then IndexTs.runQuery db q
       else (IndexTs.refusalResult, [])) ∧
    Part000.handleQuery allowWrite db q =
      (if allowWrite || !Part000.isWriteOperation q then Part000.runQuery db q
       else (Part000.refusalResult, [])) ∧
    (IndexTs.runQuery db q).2 = [q] ∧ (Part000.runQuery db q).2 = [q] ∧
    IndexTs.handleQuery false db "DROP TABLE t" = (IndexTs.refusalResult, []) ∧
    Part000.handleQuery false db "DROP TABLE t" = (Part000.refusalResult, []) := by
  refine ⟨?_, ?_, ?_, ?_, ?_, ?_⟩
  · unfold IndexTs.handleQuery
    cases allowWrite <;> cases h : IndexTs.isReadonly q <;> simp [h]
  · unfold Part000.handleQuery
    cases allowWrite <;> cases h : Part000.isWriteOperation q <;> simp [h]
  · unfold IndexTs.runQuery; cases db q <;> rfl
  · unfold Part000.runQuery; cases db q <;> rfl
  · unfold IndexTs.handleQuery
    rw [show IndexTs.isReadonly "DROP TABLE t" = false by decide]
    simp
  · unfold Part000.handleQuery
    rw [show Part000.isWriteOperation "DROP TABLE t" = true by decide]
    simp

/-- C2 (counterexample): in the src/unnamed/part_000 variant a write
refused by policy is reported without any isError flag on the response, so
the claim that every failure response is flagged isError true fails at the
concrete input DROP TABLE t with write-allow false. -/
theorem c2_counterexample :
    Part000.isWriteOperation "DROP TABLE t" = true ∧
    (Part000.handleQuery false (fun _ => Except.ok "[]") "DROP TABLE t").1.isError
      = none := by decide

/-- C2 (amended): neither variant throws on a query-tool failure; the
src/index.ts variant flags isError true on both the policy refusal and a
database execution error (whose message it carries), while the
src/unnamed/part_000 variant returns the error message as plain text
content with the isError field absent in every case. -/
theorem c2_failures_returned_not_thrown (allowWrite : Bool)
    (db : String → Except String String) (q e : String) :
    (IndexTs.handleQuery allowWrite (fun _ => Except.error e) q).1.isError
      = some true ∧
    IndexTs.runQuery (fun _ => Except.error e) q =
      ({ content := [⟨"Query error: " ++ e⟩], isError := some true }, [q]) ∧
    (Part000.handleQuery allowWrite db q).1.isError = none ∧
    Part000.runQuery (fun _ => Except.error e) q =
      ({ content := [⟨"Error executing query: " ++ e⟩], isError := none }, [q])
    := by
  refine ⟨?_, rfl, ?_, rfl⟩
  · unfold IndexTs.handleQuery
    cases allowWrite <;> cases h : IndexTs.isReadonly q <;>
      simp [h, IndexTs.runQuery, IndexTs.refusalResult]
  · unfold Part000.handleQuery
    cases allowWrite <;> cases h : Part000.isWriteOperation q <;>
      cases hdb : db q <;>
      simp [h, hdb, Part000.runQuery, Part000.refusalResult]

/-- C3: the table:/// URIs of src/unnamed/part_000 round-trip through its
regex parser, but in src/index.ts the URI built for table users parses to
pathname /users, the anchored /table/ strip does not match, and the
handler extracts /users (with a leading slash) instead of users: the
sample query is issued against /users. -/
theorem c3_uri_roundtrip_check :
    Part000.matchTableUri ("table:///" ++ "users") = some "users" ∧
    Part000.matchTableUri ("table:///" ++ "order_items") = some "order_items" ∧
    IndexTs.parseUrl ("postgres://table/" ++ "users")
      = some ("postgres:", "/users") ∧
    IndexTs.tableNameFromPath "/users" = "/users" ∧
    (IndexTs.readResource (fun _ => "[]") (fun _ => Except.ok "[]")
        ("postgres://table/" ++ "users")).2 = ["/users"] := by decide

/-- C4 (counterexample): the src/index.ts ReadResource handler never
validates the table against the catalog: for the URI naming the absent
table ghost it issues the sample query (against the slash-prefixed name)
and succeeds, instead of failing with a not-found error and issuing no
sample query. -/
theorem c4_counterexample :
    (IndexTs.readResource (fun _ => "") (fun _ => Except.ok "[]")
        ("postgres://table/" ++ "ghost")).2 = ["/ghost"] ∧
    (IndexTs.readResource (fun _ => "") (fun _ => Except.ok "[]")
        ("postgres://table/" ++ "ghost")).1 =
      Except.ok { uri := "postgres://table/ghost",
                  mimeType := "application/json",
                  schema := "", sample := "[]" } := ⟨rfl, rfl⟩

/-- C4 (amended): in the src/unnamed/part_000 variant, a well-formed table
URI whose table is not in the getTables list makes readResource fail with
the Table not found error and the sample query is never issued. -/
theorem c4_unknown_table_not_found_no_sample (cat : List CatalogRow)
    (sample : String → Except String String) (uri t : String)
    (hm : Part000.matchTableUri uri = some t)
    (ht : (Part000.getTables cat).contains t = false) :
    Part000.readResource cat sample uri =
      (Except.error ("Error reading table " ++ t ++ ": Table not found: " ++ t),
       []) := by
  have hnot : t ∉ Part000.getTables cat := by simpa using ht
  unfold Part000.readResource
  rw [hm]
  simp [hnot]

/-- C4 (witness): the amended statement at the concrete empty catalog and
the URI table:///ghost. -/
theorem c4_unknown_table_not_found_no_sample_witness :
    Part000.readResource [] (fun _ => Except.ok "[]") "table:///ghost" =
      (Except.error ("Error reading table " ++ "ghost" ++ ": Table not found: "
        ++ "ghost"), []) :=
  c4_unknown_table_not_found_no_sample [] (fun _ => Except.ok "[]")
    "table:///ghost" "ghost" (by decide) (by decide)

/-- C5 (counterexample): in src/index.ts a catalog failure during resource
listing propagates out of the handler instead of producing an empty
resource list, at the concrete failure message connection terminated. -/
theorem c5_counterexample :
    IndexTs.listResources (Except.error "connection terminated") =
      Except.error "connection terminated" ∧
    IndexTs.listResources (Except.error "connection terminated") ≠
      Except.ok [] := by
  refine ⟨rfl, fun h => ?_⟩
  exact Except.noConfusion h

/-- C5 (amended): the src/unnamed/part_000 ListResources handler turns any
catalog failure into the empty resource list, while the src/index.ts
handler propagates the failure out of the handler. -/
theorem c5_catalog_failure_degrades (e : String) :
    Part000.listResources (Except.error e) = [] ∧
    IndexTs.listResources (Except.error e) = Except.error e := ⟨rfl, rfl⟩

/-- C6: the four classifier examples of the specification hold under both
policies: the whitelist of src/index.ts classifies the SELECT and the
whitespace-led WITH statement as read-only and both DELETE spellings as
writes, and the blacklist of src/unnamed/part_000 classifies the same
inputs the same way. -/
theorem c6_classifier_spec_examples :
    IndexTs.isReadonly "SELECT * FROM t" = true ∧
    IndexTs.isReadonly "  with cte as (...) select 1" = true ∧
    IndexTs.isReadonly "DELETE FROM t" = false ∧
    IndexTs.isReadonly "delete from t" = false ∧
    Part000.isWriteOperation "SELECT * FROM t" = false ∧
    Part000.isWriteOperation "  with cte as (...) select 1" = false ∧
    Part000.isWriteOperation "DELETE FROM t" = true ∧
    Part000.isWriteOperation "delete from t" = true := by decide

/-- C7 (counterexample): a trimmed statement that begins with a write
keyword NOT followed by a whitespace character is classified read-only:
both the bare DROP and the comment-separated DROP TABLE statement begin
with the keyword drop yet isWriteOperation returns false. -/
theorem c7_counterexample :
    "drop".data.isPrefixOf (lowerL (trimL "DROP".data)) = true ∧
    Part000.isWriteOperation "DROP" = false ∧
    "drop".data.isPrefixOf (lowerL (trimL "DROP/*force*/TABLE t".data)) = true ∧
    Part000.isWriteOperation "DROP/*force*/TABLE t" = false := by decide

/-- C7 (amended): isWriteOperation returns Write exactly when the trimmed
statement is one of the eight keywords, compared case-insensitively,
followed immediately by one whitespace character and then anything;
every other string, including a keyword with nothing or a non-whitespace
character after it, is classified ReadOnly. -/
theorem c7_blacklist_keyword_then_space (q : String) :
    Part000.isWriteOperation q = true ↔
    ∃ kw ∈ Part000.writeKeywords, ∃ pre : List Char, ∃ c : Char,
      ∃ rest : List Char,
        trimL q.data = pre ++ c :: rest ∧ lowerL pre = kw ∧ jsWs c = true := by
  unfold Part000.isWriteOperation Part000.regexTest
  rw [trimL_no_leading]
  rw [List.any_eq_true]
  constructor
  · rintro ⟨kw, hkw, hf⟩
    simp only [Bool.and_eq_true] at hf
    obtain ⟨hp, hws⟩ := hf
    rw [List.isPrefixOf_iff_prefix] at hp
    obtain ⟨s, hs⟩ := hp
    refine ⟨kw, hkw, (trimL q.data).take kw.length, ?_⟩
    cases hd : (trimL q.data).drop kw.length with
    | nil => rw [hd] at hws; simp at hws
    | cons c rest =>
      refine ⟨c, rest, ?_, ?_, ?_⟩
      · conv_lhs => rw [← List.take_append_drop kw.length (trimL q.data)]
        rw [hd]
      · unfold lowerL
        rw [List.map_take]
        show (lowerL (trimL q.data)).take kw.length = kw
        rw [← hs, List.take_left]
      · rw [hd] at hws; exact hws
  · rintro ⟨kw, hkw, pre, c, rest, ht, hpre, hc⟩
    refine ⟨kw, hkw, ?_⟩
    simp only [Bool.and_eq_true]
    have hlen : pre.length = kw.length := by
      rw [← hpre]; unfold lowerL; rw [List.length_map]
    constructor
    · rw [List.isPrefixOf_iff_prefix]
      refine ⟨lowerL (c :: rest), ?_⟩
      rw [ht]
      unfold lowerL at hpre ⊢
      rw [List.map_append, hpre]
    · rw [ht, ← hlen, List.drop_left]
      exact hc

/-- C8 (counterexample): the src/index.ts ListTools handler returns the
same static tool descriptor, description included, under both values of
the write-allow flag, so the claimed difference fails there. -/
theorem c8_counterexample :
    IndexTs.listTools true = IndexTs.listTools false := rfl

/-- C8 (amended): only the src/unnamed/part_000 variant varies the query
tool description with the write-allow flag (the tool name staying the
same); the src/index.ts description is one constant string under both
flags. -/
theorem c8_description_reflects_policy :
    Part000.listTools true ≠ Part000.listTools false ∧
    (Part000.listTools true).map ToolDescriptor.name =
      (Part000.listTools false).map ToolDescriptor.name ∧
    IndexTs.listTools true = IndexTs.listTools false := by decide

/-- C9 (counterexample): on a catalog holding the public view alpha and
the unsorted base tables zebra and beta, the src/index.ts listing keeps
the view and the catalog order, so the claim that the enumeration always
excludes views and sorts ascending fails. -/
theorem c9_counterexample :
    IndexTs.tablesQuery
        [⟨"zebra", "public", "BASE TABLE"⟩, ⟨"alpha", "public", "VIEW"⟩,
         ⟨"beta", "public", "BASE TABLE"⟩] = ["zebra", "alpha", "beta"] ∧
    ("alpha" ∈ IndexTs.tablesQuery [⟨"zebra", "public", "BASE TABLE"⟩,
        ⟨"alpha", "public", "VIEW"⟩, ⟨"beta", "public", "BASE TABLE"⟩]) ∧
    ¬ (IndexTs.tablesQuery [⟨"zebra", "public", "BASE TABLE"⟩,
        ⟨"alpha", "public", "VIEW"⟩,
        ⟨"beta", "public", "BASE TABLE"⟩]).Sorted nameLe := by decide

/-- C9 (amended): the src/unnamed/part_000 getTables returns exactly the
base-table names of the public schema in ascending name order, while the
src/index.ts listing filters only on the schema (views included) and
keeps the catalog order. -/
theorem c9_enumeration_filter_and_order (cat : List CatalogRow) :
    (Part000.getTables cat).Sorted nameLe ∧
    (∀ t, t ∈ Part000.getTables cat ↔
      ∃ r ∈ cat, r.table_name = t ∧ r.table_schema = "public" ∧
        r.table_type = "BASE TABLE") ∧
    (∀ t, t ∈ IndexTs.tablesQuery cat ↔
      ∃ r ∈ cat, r.table_name = t ∧ r.table_schema = "public") := by
  refine ⟨List.sorted_insertionSort _ _, ?_, ?_⟩
  · intro t
    unfold Part000.getTables
    rw [(List.perm_insertionSort _ _).mem_iff]
    simp only [List.mem_map, List.mem_filter, Bool.and_eq_true,
      decide_eq_true_eq]
    tauto
  · intro t
    unfold IndexTs.tablesQuery
    simp only [List.mem_map, List.mem_filter, decide_eq_true_eq]
    tauto

/-- C10: with the write-allow flag false, the src/index.ts gate is the raw
character-prefix test isReadonly: exactly the statements whose trimmed
lower-cased text starts with the characters select or with are executed
(sent to the database), including selectivity_test() and
withdraw_funds(), while every other statement, the EXPLAIN and SHOW
statements and the empty string among them, gets the refusal block and
zero executions. -/
theorem c10_whitelist_raw_prefix_gate (db : String → Except String String)
    (q : String) :
    ((IndexTs.handleQuery false db q).2 =
      if IndexTs.isReadonly q then [q] else []) ∧
    ((IndexTs.handleQuery false db q).1 =
      if IndexTs.isReadonly q then (IndexTs.runQuery db q).1
      else IndexTs.refusalResult) ∧
    IndexTs.isReadonly "selectivity_test()" = true ∧
    (IndexTs.handleQuery false db "selectivity_test()").2
      = ["selectivity_test()"] ∧
    IndexTs.isReadonly "withdraw_funds()" = true ∧
    (IndexTs.handleQuery false db "withdraw_funds()").2 = ["withdraw_funds()"] ∧
    IndexTs.handleQuery false db "EXPLAIN SELECT 1" = (IndexTs.refusalResult, []) ∧
    IndexTs.handleQuery false db "SHOW server_version"
      = (IndexTs.refusalResult, []) ∧
    IndexTs.handleQuery false db "" = (IndexTs.refusalResult, []) := by
  have hrun : ∀ s, (IndexTs.runQuery db s).2 = [s] := by
    intro s; unfold IndexTs.runQuery; cases db s <;> rfl
  refine ⟨?_, ?_, by decide, ?_, by decide, ?_, ?_, ?_, ?_⟩
  · unfold IndexTs.handleQuery
    cases h : IndexTs.isReadonly q <;> simp [h, hrun]
  · unfold IndexTs.handleQuery
    cases h : IndexTs.isReadonly q <;> simp [h]
  · unfold IndexTs.handleQuery
    rw [show IndexTs.isReadonly "selectivity_test()" = true by decide]
    simp [hrun]
  · unfold IndexTs.handleQuery
    rw [show IndexTs.isReadonly "withdraw_funds()" = true by decide]
    simp [hrun]
  · unfold IndexTs.handleQuery
    rw [show IndexTs.isReadonly "EXPLAIN SELECT 1" = false by decide]
    simp
  · unfold IndexTs.handleQuery
    rw [show IndexTs.isReadonly "SHOW server_version" = false by decide]
    simp
  · unfold IndexTs.handleQuery
    rw [show IndexTs.isReadonly "" = false by decide]
    simp

end PgMcp
